import Mathlib

/-!
Shallow embedding of `src/lxd_vm.py` (an LXD VM provisioning test harness).

The program drives external effects through two channels only:

* spawning one external command at a time (`RunCommand` / `LXDTest.run_command`),
  observing its exit status, stdout, stderr;
* fetching a remote file with `urllib.request.urlretrieve` plus `os.path.isfile`
  checks (`LXDTest.download_images`).

We model the environment as an oracle `World` giving, for the k-th spawned
command, its exit status and captured output, the initial filesystem contents,
and for the f-th fetch its outcome (success, an IOError/OSError/HTTPError/
URLError, or a ValueError) together with the result of the post-download
`os.path.isfile` re-check.  A run threads a state `St` recording the ordered
trace of issued commands and fetches and the two oracle cursors.  All
definitions are executable and mirror the Python control flow line by line.
-/

set_option maxHeartbeats 1000000

/-- Outcome of one `urllib.request.urlretrieve` call as distinguished by the
two `except` clauses of `LXDTest.download_images` (src/lxd_vm.py lines
179-191): success, an `IOError`/`OSError`/`HTTPError`/`URLError`, or a
`ValueError`. -/
inductive FetchOutcome
  | ok
  | ioError
  | valueError
deriving DecidableEq

/-- Value of a Python attribute that can hold `None`, `False`, or a string:
the type of `self.template_tarball` / `self.rootfs_tarball` (initialised to
`None` at lines 76-77, later assigned either the result of `download_images`,
which is `False` or a filename, or a filename directly). -/
inductive PyVal
  | noneV
  | falseV
  | strV (s : String)
deriving DecidableEq

/-- Python `str.format` rendering of a `PyVal`, as used when the tarball
attributes are interpolated into the `lxc image import` command string at
lines 149-151. -/
def PyVal.fmt : PyVal → String
  | .noneV => "None"
  | .falseV => "False"
  | .strV s => s

/-- Python truthiness of a `PyVal` (`if not self.template_tarball:` at line
118): `None` and `False` are falsy, a string is truthy iff nonempty. -/
def PyVal.truthy : PyVal → Bool
  | .noneV => false
  | .falseV => false
  | .strV s => !(s == "")

/-- The external commands the program issues, in structured form; `render`
below produces the exact command strings of the source. -/
inductive Cmd
  | lxdInit
  | imgImport (t r a : String)
  | imageCopy (rem osv a : String)
  | launchVm (a n : String)
  | startInst (n : String)
  | list
  | execTest (n : String)
  | imageDelete (a : String)
  | deleteForce (n : String)
deriving DecidableEq

/-- The exact command strings built by the source (format strings at lines
106, 149-151, 161-162, 218, 246, 251, 223/257, 228-229/261-262, 204, 205). -/
def Cmd.render : Cmd → String
  | .lxdInit => "lxd init --auto"
  | .imgImport t r a => "lxc image import " ++ t ++ " rootfs " ++ r ++ " --alias " ++ a
  | .imageCopy rem osv a => "lxc image copy " ++ rem ++ osv ++ " local: --alias " ++ a
  | .launchVm a n => "lxc launch " ++ a ++ " " ++ n ++ " -vm"
  | .startInst n => "lxc start " ++ n ++ " "
  | .list => "lxc list"
  | .execTest n => "lxc exec " ++ n ++ " dd if=/dev/urandom of=testdata.txt bs=1024 count=1000"
  | .imageDelete a => "lxc image delete " ++ a
  | .deleteForce n => "lxc delete --force " ++ n

/-- One observable external action of a run: a spawned command or a file
fetch (`urlretrieve url filename`). -/
inductive Event
  | cmd (c : Cmd)
  | fetch (url : String) (filename : String)
deriving DecidableEq

/-- Oracle for the external environment of a run: `ret`, `out`, `err` give the
exit status, stdout and stderr of the k-th spawned command; `isfile` gives the
initial filesystem's answer to `os.path.isfile`; `fetchRes` gives the outcome
of the f-th `urlretrieve` call and `fetchFile` the answer of the
`os.path.isfile` re-check performed right after a successful f-th fetch. -/
structure World where
  ret : Nat → Int
  out : Nat → String
  err : Nat → String
  isfile : String → Bool
  fetchRes : Nat → FetchOutcome
  fetchFile : Nat → Bool

/-- Run state: the ordered trace of external events issued so far, the number
`k` of commands spawned and the number `f` of fetches attempted. -/
structure St where
  trace : List Event
  k : Nat
  f : Nat
deriving DecidableEq

/-- The initial state of a run: nothing issued yet. -/
def stInit : St := ⟨[], 0, 0⟩

/-- Result record of one external command invocation, mirroring class
`RunCommand` (lines 32-54): fields `stdout`, `stderr`, `returncode`, `cmd`
filled by `Popen`/`communicate`. -/
structure CommandResult where
  stdout : String
  stderr : String
  returncode : Int
  cmd : String
deriving DecidableEq

/-- Mirrors `RunCommand.__init__`/`RunCommand.run` (lines 43-54): spawn the
k-th command and capture stdout, stderr and the exit status.  `communicate`
never raises on a nonzero exit status, so this is a total function of the
oracle. -/
def RunCommand.make (w : World) (k : Nat) (c : String) : CommandResult :=
  { stdout := w.out k, stderr := w.err k, returncode := w.ret k, cmd := c }

/-- Severity of a log line (`logging.error` vs `logging.debug`). -/
inductive LogLevel
  | error
  | debug
deriving DecidableEq

/-- One emitted log line. -/
structure LogLine where
  level : LogLevel
  text : String
deriving DecidableEq

/-- Mirrors `LXDTest.run_command` (lines 83-99): the boolean success judgment
and the log lines it emits.  Nonzero exit: log the command and code, its
stdout and its stderr at error level and return `False`; zero exit: log at
debug level (stdout if nonempty, else stderr if nonempty, else a fixed line)
and return `True`. -/
def run_command_logs (task : CommandResult) : Bool × List LogLine :=
  if task.returncode ≠ 0 then
    (false,
      [⟨.error, "Command " ++ task.cmd ++ " returnd a code of " ++ toString task.returncode⟩,
       ⟨.error, " STDOUT: " ++ task.stdout⟩,
       ⟨.error, " STDERR: " ++ task.stderr⟩])
  else
    (true,
      ⟨.debug, "Command " ++ task.cmd ++ ":"⟩ ::
        (if task.stdout ≠ "" then [⟨.debug, " STDOUT: " ++ task.stdout⟩]
         else if task.stderr ≠ "" then [⟨.debug, " STDERR: " ++ task.stderr⟩]
         else [⟨.debug, " Command returned no output"⟩]))

/-- Effectful view of `LXDTest.run_command` as used by the orchestration code:
spawn the command (appending it to the trace, advancing the command cursor)
and return the boolean success judgment of lines 85-99. -/
def LXDTest.run_command (w : World) (st : St) (c : Cmd) : Bool × St :=
  ((run_command_logs (RunCommand.make w st.k c.render)).1,
   ⟨st.trace ++ [Event.cmd c], st.k + 1, st.f⟩)

/-- Run configuration, mirroring the fields set by `LXDTest.__init__`
(lines 73-81). -/
structure Config where
  template_url : Option String
  rootfs_url : Option String
  name : String
  image_alias : String
  default_remote : String
  os_version : String
deriving DecidableEq

/-- Modelled from the spec: `get_release_to_test()` is called at line 81 of
src/lxd_vm.py but is defined nowhere under src/ (it belongs to the original
checkbox virtualization script this file was extracted from).  Per the spec it
yields "an OS-release identifier derived from host release metadata", so we
model it as the identity on a host-release parameter of the run. -/
def get_release_to_test (hostRelease : String) : String := hostRelease

/-- Mirrors `LXDTest.__init__` (lines 73-81): the instance name is fixed to
"testbed", the image alias is `uuid4().hex` (a per-run generated unique token,
modelled as a parameter), the default remote is "ubuntu:" and the OS version
comes from `get_release_to_test`. -/
def LXDTest.make (template rootfs : Option String) (imageAlias hostRelease : String) : Config :=
  { template_url := template, rootfs_url := rootfs, name := "testbed",
    image_alias := imageAlias, default_remote := "ubuntu:",
    os_version := get_release_to_test hostRelease }

/-- Helper for `urlparse_path`: the characters after the first occurrence of
the scheme separator `://`, if any. -/
def dropScheme : List Char → Option (List Char)
  | [] => none
  | ':' :: '/' :: '/' :: rest => some rest
  | _ :: xs => dropScheme xs

/-- Helper for `urlparse_path`: the suffix starting at the first `/`, i.e.
the path part once scheme and network location are gone. -/
def pathFrom : List Char → List Char
  | [] => []
  | '/' :: rest => '/' :: rest
  | _ :: xs => pathFrom xs

/-- Mirrors `urlparse(url).path` for the common URL shapes the program
handles: drop the fragment (first `#` on), drop the query (first `?` on), and
when a `scheme://netloc` part is present drop it, keeping the path. -/
def urlparse_path (url : String) : String :=
  let noFrag := url.data.takeWhile (fun c => !(c == '#'))
  let noQuery := noFrag.takeWhile (fun c => !(c == '?'))
  match dropScheme noQuery with
  | some rest => String.mk (pathFrom rest)
  | none => String.mk noQuery

/-- Mirrors `urlparse(url).path.split('/')[-1]` (lines 113, 131): the final
path segment of the URL (everything after the last `/`, or the whole path if
it has no `/`), the derived local filename. -/
def targetfile (url : String) : String :=
  String.mk ((((urlparse_path url).data).reverse.takeWhile
    (fun c => !(c == '/'))).reverse)

/-- Mirrors `LXDTest.download_images` (lines 172-197): attempt the fetch; on
an `IOError`/`OSError`/`HTTPError`/`URLError` or a `ValueError` log and return
`False`; after a fetch that reported success, re-check `os.path.isfile` and
return `False` if the file is absent, else return the filename.  Exactly one
fetch is attempted (the fetch cursor advances by one), there is no retry at
this layer. -/
def LXDTest.download_images (w : World) (st : St) (url : String) (filename : String) :
    PyVal × St :=
  let st1 : St := ⟨st.trace ++ [Event.fetch url filename], st.k, st.f + 1⟩
  let v : PyVal :=
    match w.fetchRes st.f with
    | FetchOutcome.ioError => PyVal.falseV
    | FetchOutcome.valueError => PyVal.falseV
    | FetchOutcome.ok =>
        if w.fetchFile st.f then PyVal.strV filename else PyVal.falseV
  (v, st1)

/-- Mirrors the two identical image-resolution blocks of `LXDTest.setup`
(template: lines 111-127, rootfs: lines 129-144; they differ only in log
text).  Returns the tarball attribute value, a flag that is `false` exactly
when the block executed `result = False` (lines 118-123 / 136-140), and the
threaded state.  If `os.path.isfile` finds the derived filename, the cached
path is used and no fetch happens; otherwise `download_images` runs and a
falsy result forces the failure flag. -/
def LXDTest.resolve_image (w : World) (st : St) (url : String) : PyVal × Bool × St :=
  let filename := "/tmp/" ++ targetfile url
  if w.isfile filename then (PyVal.strV filename, true, st)
  else
    let d := LXDTest.download_images w st url filename
    (d.1, (d.1).truthy, d.2)

/-- Mirrors `LXDTest.setup` (lines 101-170).  Returns
`(result, template_tarball, rootfs_tarball, state)`.  Control flow of the
source, faithfully: `lxd init --auto` failure sets `result = False` (line
106-108); each provided URL is resolved (lines 111-144) and a failed download
sets `result = False` (but does not return); then, if BOTH urls were provided,
a single `lxc image import` attempt whose boolean outcome is assigned to
`result`, overwriting any earlier `False` (lines 147-156); otherwise the
remote-copy fallback: one attempt plus up to `retry = 2` extra attempts of the
same `lxc image copy` command, stopping at the first success, the last
attempt's outcome being the returned `result` (lines 157-169). -/
def LXDTest.setup (cfg : Config) (w : World) (st : St) : Bool × PyVal × PyVal × St :=
  let r0 := LXDTest.run_command w st Cmd.lxdInit
  let result0 := r0.1
  let st1 := r0.2
  let t :=
    match cfg.template_url with
    | none => (PyVal.noneV, true, st1)
    | some url => LXDTest.resolve_image w st1 url
  let ttar := t.1
  let result1 := result0 && t.2.1
  let st2 := t.2.2
  let rt :=
    match cfg.rootfs_url with
    | none => (PyVal.noneV, true, st2)
    | some url => LXDTest.resolve_image w st2 url
  let rtar := rt.1
  let _result2 := result1 && rt.2.1
  let st3 := rt.2.2
  if cfg.template_url.isSome && cfg.rootfs_url.isSome then
    let i := LXDTest.run_command w st3 (Cmd.imgImport ttar.fmt rtar.fmt cfg.image_alias)
    (i.1, ttar, rtar, i.2)
  else
    let c := Cmd.imageCopy cfg.default_remote cfg.os_version cfg.image_alias
    let a1 := LXDTest.run_command w st3 c
    if a1.1 then (a1.1, ttar, rtar, a1.2)
    else
      let a2 := LXDTest.run_command w a1.2 c
      if a2.1 then (a2.1, ttar, rtar, a2.2)
      else
        let a3 := LXDTest.run_command w a2.2 c
        (a3.1, ttar, rtar, a3.2)

/-- Mirrors `LXDTest.cleanup` (lines 199-205): unconditionally issue the
image delete for the generated alias and the forced instance delete for the
instance name; both outcomes are ignored. -/
def LXDTest.cleanup (cfg : Config) (w : World) (st : St) : St :=
  let d1 := LXDTest.run_command w st (Cmd.imageDelete cfg.image_alias)
  let d2 := LXDTest.run_command w d1.2 (Cmd.deleteForce cfg.name)
  d2.2

/-- Mirrors `LXDTest.start_vm` (lines 235-266): run `setup`, returning `False`
on its failure; then launch the VM, start it, list instances, and run the
single guest-introspection probe (`lxc exec ... dd ...`), each step returning
`False` immediately on a nonzero exit, and `True` after the probe succeeds. -/
def LXDTest.start_vm (cfg : Config) (w : World) (st : St) : Bool × St :=
  let s := LXDTest.setup cfg w st
  if s.1 then
    let l := LXDTest.run_command w s.2.2.2 (Cmd.launchVm cfg.image_alias cfg.name)
    if l.1 then
      let s2 := LXDTest.run_command w l.2 (Cmd.startInst cfg.name)
      if s2.1 then
        let li := LXDTest.run_command w s2.2 Cmd.list
        if li.1 then
          let ex := LXDTest.run_command w li.2 (Cmd.execTest cfg.name)
          if ex.1 then (true, ex.2) else (false, ex.2)
        else (false, li.2)
      else (false, s2.2)
    else (false, l.2)
  else (false, s.2.2.2)

/-- Mirrors `test_lxd_vm` (lines 269-296) from the point where the `LXDTest`
object exists: run `start_vm`, then unconditionally run `cleanup`, and report
`start_vm`'s result (argument/environment resolution for the two locators is
the caller's concern and is reflected in `cfg`). -/
def test_lxd_vm (cfg : Config) (w : World) : Bool × St :=
  let r := LXDTest.start_vm cfg w stInit
  let st := LXDTest.cleanup cfg w r.2
  (r.1, st)

/-- Counts the occurrences of one event in a trace. -/
def countEv (e : Event) (tr : List Event) : Nat :=
  tr.countP (fun x => x == e)

/-- Recognises the two cleanup commands. -/
def isCleanupCmd : Event → Bool
  | .cmd (.imageDelete _) => true
  | .cmd (.deleteForce _) => true
  | _ => false

/-- Recognises a local-pair `lxc image import` command. -/
def isImportCmd : Event → Bool
  | .cmd (.imgImport _ _ _) => true
  | _ => false

/-- Recognises a remote-catalog `lxc image copy` command. -/
def isCopyCmd : Event → Bool
  | .cmd (.imageCopy _ _ _) => true
  | _ => false

/-- Recognises a fetch (download) event. -/
def isFetchEv : Event → Bool
  | .fetch _ _ => true
  | _ => false

/-- Number of boot probes (`lxc exec <name> dd ...`) in a trace. -/
def probeCount (n : String) (tr : List Event) : Nat :=
  countEv (Event.cmd (Cmd.execTest n)) tr

/-- Projection: `run_command` appends exactly its command to the trace. -/
theorem run_command_trace (w : World) (st : St) (c : Cmd) :
    (LXDTest.run_command w st c).2.trace = st.trace ++ [Event.cmd c] := rfl

theorem run_command_k (w : World) (st : St) (c : Cmd) :
    (LXDTest.run_command w st c).2.k = st.k + 1 := rfl

theorem run_command_f (w : World) (st : St) (c : Cmd) :
    (LXDTest.run_command w st c).2.f = st.f := rfl

theorem run_command_fst (w : World) (st : St) (c : Cmd) :
    (LXDTest.run_command w st c).1 = decide (w.ret st.k = 0) := by
  by_cases h : w.ret st.k = 0 <;>
    simp [LXDTest.run_command, run_command_logs, RunCommand.make, h]

theorem resolve_image_k (w : World) (st : St) (url : String) :
    (LXDTest.resolve_image w st url).2.2.k = st.k := by
  unfold LXDTest.resolve_image
  dsimp only
  split <;> rfl

theorem resolve_image_countP (w : World) (st : St) (url : String) (p : Event → Bool)
    (hf : ∀ u fn, p (Event.fetch u fn) = false) :
    ((LXDTest.resolve_image w st url).2.2.trace).countP p = st.trace.countP p := by
  unfold LXDTest.resolve_image
  dsimp only
  split
  · rfl
  · simp [LXDTest.download_images, List.countP_append, hf]

theorem setup_countP (cfg : Config) (w : World) (st : St) (p : Event → Bool)
    (h1 : p (Event.cmd Cmd.lxdInit) = false)
    (h2 : ∀ a b c, p (Event.cmd (Cmd.imgImport a b c)) = false)
    (h3 : ∀ a b c, p (Event.cmd (Cmd.imageCopy a b c)) = false)
    (hf : ∀ u fn, p (Event.fetch u fn) = false) :
    ((LXDTest.setup cfg w st).2.2.2.trace).countP p = st.trace.countP p := by
  unfold LXDTest.setup
  dsimp only
  rcases htu : cfg.template_url with _ | turl <;>
    rcases hru : cfg.rootfs_url with _ | rurl <;>
      simp only [htu, hru] <;>
        repeat' split <;>
          simp_all [run_command_trace, resolve_image_countP, List.countP_append,
            List.countP_cons, h1, h2, h3, hf]

theorem setup_countP_fallback (cfg : Config) (w : World) (st : St) (p : Event → Bool)
    (hb : (cfg.template_url.isSome && cfg.rootfs_url.isSome) = false)
    (h1 : p (Event.cmd Cmd.lxdInit) = false)
    (h3 : ∀ a b c, p (Event.cmd (Cmd.imageCopy a b c)) = false)
    (hf : ∀ u fn, p (Event.fetch u fn) = false) :
    ((LXDTest.setup cfg w st).2.2.2.trace).countP p = st.trace.countP p := by
  unfold LXDTest.setup
  dsimp only
  rcases htu : cfg.template_url with _ | turl <;>
    rcases hru : cfg.rootfs_url with _ | rurl <;>
      simp only [htu, hru] at hb ⊢ <;>
        repeat' split <;>
          simp_all [run_command_trace, resolve_image_countP, List.countP_append,
            List.countP_cons, h1, h3, hf]

theorem cleanup_countP (cfg : Config) (w : World) (st : St) (p : Event → Bool)
    (hd1 : p (Event.cmd (Cmd.imageDelete cfg.image_alias)) = false)
    (hd2 : p (Event.cmd (Cmd.deleteForce cfg.name)) = false) :
    ((LXDTest.cleanup cfg w st).trace).countP p = st.trace.countP p := by
  simp [LXDTest.cleanup, LXDTest.run_command, List.countP_append, List.countP_cons,
    hd1, hd2]

theorem start_vm_countP (cfg : Config) (w : World) (st : St) (p : Event → Bool)
    (hs : ((LXDTest.setup cfg w st).2.2.2.trace).countP p = st.trace.countP p)
    (hl : p (Event.cmd (Cmd.launchVm cfg.image_alias cfg.name)) = false)
    (hst : p (Event.cmd (Cmd.startInst cfg.name)) = false)
    (hli : p (Event.cmd Cmd.list) = false)
    (hex : p (Event.cmd (Cmd.execTest cfg.name)) = false) :
    ((LXDTest.start_vm cfg w st).2.trace).countP p = st.trace.countP p := by
  unfold LXDTest.start_vm
  dsimp only
  repeat' split <;>
    try simp_all [run_command_trace, List.countP_append, List.countP_cons,
      hl, hst, hli, hex]


theorem setup_fallback_spec (cfg : Config) (w : World)
    (hb : (cfg.template_url.isSome && cfg.rootfs_url.isSome) = false) :
    (LXDTest.setup cfg w stInit).1
      = (decide (w.ret 1 = 0) || decide (w.ret 2 = 0) || decide (w.ret 3 = 0)) ∧
    ((LXDTest.setup cfg w stInit).2.2.2.trace).countP isCopyCmd
      = (if w.ret 1 = 0 then 1 else if w.ret 2 = 0 then 2 else 3) := by
  unfold LXDTest.setup
  dsimp only
  rcases htu : cfg.template_url with _ | turl <;>
    rcases hru : cfg.rootfs_url with _ | rurl <;>
      simp only [htu, hru] at hb ⊢ <;>
        by_cases h1 : w.ret 1 = 0 <;> by_cases h2 : w.ret 2 = 0 <;>
          by_cases h3 : w.ret 3 = 0 <;>
            simp_all [run_command_fst, run_command_trace, run_command_k,
              resolve_image_k, resolve_image_countP, LXDTest.run_command,
              List.countP_append, List.countP_cons, isCopyCmd, stInit,
              run_command_logs, RunCommand.make]

theorem setup_import_spec (cfg : Config) (w : World)
    (hb : (cfg.template_url.isSome && cfg.rootfs_url.isSome) = true) :
    (LXDTest.setup cfg w stInit).1 = decide (w.ret 1 = 0) ∧
    ((LXDTest.setup cfg w stInit).2.2.2.trace).countP isImportCmd = 1 ∧
    ((LXDTest.setup cfg w stInit).2.2.2.trace).countP isCopyCmd = 0 := by
  unfold LXDTest.setup
  dsimp only
  rcases htu : cfg.template_url with _ | turl <;>
    rcases hru : cfg.rootfs_url with _ | rurl <;>
      simp only [htu, hru] at hb ⊢ <;>
        by_cases h1 : w.ret 1 = 0 <;>
          simp_all [run_command_fst, run_command_trace, run_command_k,
            resolve_image_k, resolve_image_countP, LXDTest.run_command,
            List.countP_append, List.countP_cons, isImportCmd, isCopyCmd, stInit,
            run_command_logs, RunCommand.make]

theorem start_vm_tail (cfg : Config) (w : World)
    (h0 : (LXDTest.setup cfg w stInit).1 = true)
    (h1 : w.ret ((LXDTest.setup cfg w stInit).2.2.2.k) = 0)
    (h2 : w.ret ((LXDTest.setup cfg w stInit).2.2.2.k + 1) = 0)
    (h3 : w.ret ((LXDTest.setup cfg w stInit).2.2.2.k + 2) = 0) :
    (LXDTest.start_vm cfg w stInit).2.trace
      = (LXDTest.setup cfg w stInit).2.2.2.trace
        ++ [Event.cmd (Cmd.launchVm cfg.image_alias cfg.name),
            Event.cmd (Cmd.startInst cfg.name), Event.cmd Cmd.list,
            Event.cmd (Cmd.execTest cfg.name)] ∧
    (LXDTest.start_vm cfg w stInit).1
      = decide (w.ret ((LXDTest.setup cfg w stInit).2.2.2.k + 3) = 0) := by
  unfold LXDTest.start_vm
  dsimp only
  by_cases h4 : w.ret ((LXDTest.setup cfg w stInit).2.2.2.k + 3) = 0 <;>
    simp [h0, h1, h2, h3, h4, run_command_fst, run_command_trace, run_command_k,
      List.append_assoc]

theorem exec_countP_zero (cfg : Config) (w : World) :
    ((LXDTest.setup cfg w stInit).2.2.2.trace).countP
      (fun x => x == Event.cmd (Cmd.execTest cfg.name)) = 0 := by
  have h := setup_countP cfg w stInit
    (fun x => x == Event.cmd (Cmd.execTest cfg.name))
    (by simp) (by simp) (by simp) (by simp)
  simpa [stInit] using h

/-- C2 (amended): when the boot probe fails (nonzero exit status), the
verification step of `start_vm` attempts exactly one probe and terminates
with failure immediately; there is no poll loop, no wait interval and no
total time budget in the code. -/
theorem c2_single_probe_on_failure (cfg : Config) (w : World)
    (h0 : (LXDTest.setup cfg w stInit).1 = true)
    (h1 : w.ret ((LXDTest.setup cfg w stInit).2.2.2.k) = 0)
    (h2 : w.ret ((LXDTest.setup cfg w stInit).2.2.2.k + 1) = 0)
    (h3 : w.ret ((LXDTest.setup cfg w stInit).2.2.2.k + 2) = 0)
    (h4 : w.ret ((LXDTest.setup cfg w stInit).2.2.2.k + 3) ≠ 0) :
    (LXDTest.start_vm cfg w stInit).1 = false ∧
    probeCount cfg.name ((LXDTest.start_vm cfg w stInit).2.trace) = 1 := by
  obtain ⟨ht, hr⟩ := start_vm_tail cfg w h0 h1 h2 h3
  refine ⟨by rw [hr]; simp [h4], ?_⟩
  rw [probeCount, countEv, ht]
  simp [List.countP_append, List.countP_cons, exec_countP_zero cfg w]

/-- C1: in every run (`test_lxd_vm`), the cleanup commands — the image delete
for the generated alias and the forced instance delete for the instance name —
are issued exactly once each, strictly after every event of the
provisioning-and-verification sequence (`start_vm`), which itself never issues
a cleanup command; this holds regardless of whether setup, launch, start or
verification succeeded or failed. -/
theorem c1_cleanup_runs_once_after (cfg : Config) (w : World) :
    (test_lxd_vm cfg w).2.trace
      = (LXDTest.start_vm cfg w stInit).2.trace
        ++ [Event.cmd (Cmd.imageDelete cfg.image_alias),
            Event.cmd (Cmd.deleteForce cfg.name)] ∧
    ((LXDTest.start_vm cfg w stInit).2.trace).countP isCleanupCmd = 0 ∧
    countEv (Event.cmd (Cmd.imageDelete cfg.image_alias)) (test_lxd_vm cfg w).2.trace = 1 ∧
    countEv (Event.cmd (Cmd.deleteForce cfg.name)) (test_lxd_vm cfg w).2.trace = 1 := by
  have htr : (test_lxd_vm cfg w).2.trace
      = (LXDTest.start_vm cfg w stInit).2.trace
        ++ [Event.cmd (Cmd.imageDelete cfg.image_alias),
            Event.cmd (Cmd.deleteForce cfg.name)] := by
    simp [test_lxd_vm, LXDTest.cleanup, run_command_trace, List.append_assoc]
  have hzero : ((LXDTest.start_vm cfg w stInit).2.trace).countP isCleanupCmd = 0 := by
    have h := start_vm_countP cfg w stInit isCleanupCmd
      (setup_countP cfg w stInit isCleanupCmd rfl (fun _ _ _ => rfl) (fun _ _ _ => rfl)
        (fun _ _ => rfl)) rfl rfl rfl rfl
    simpa [stInit] using h
  have hz1 : ((LXDTest.start_vm cfg w stInit).2.trace).countP
      (fun x => x == Event.cmd (Cmd.imageDelete cfg.image_alias)) = 0 := by
    have h := start_vm_countP cfg w stInit
      (fun x => x == Event.cmd (Cmd.imageDelete cfg.image_alias))
      (setup_countP cfg w stInit _ (by simp) (by simp) (by simp) (by simp))
      (by simp) (by simp) (by simp) (by simp)
    simpa [stInit] using h
  have hz2 : ((LXDTest.start_vm cfg w stInit).2.trace).countP
      (fun x => x == Event.cmd (Cmd.deleteForce cfg.name)) = 0 := by
    have h := start_vm_countP cfg w stInit
      (fun x => x == Event.cmd (Cmd.deleteForce cfg.name))
      (setup_countP cfg w stInit _ (by simp) (by simp) (by simp) (by simp))
      (by simp) (by simp) (by simp) (by simp)
    simpa [stInit] using h
  refine ⟨htr, hzero, ?_, ?_⟩
  · rw [countEv, htr]
    simp [List.countP_append, List.countP_cons, hz1]
  · rw [countEv, htr]
    simp [List.countP_append, List.countP_cons, hz2]

theorem tmp_ne_empty (t : String) : (("/tmp/" ++ t) == "") = false := by
  have h : ("/tmp/" ++ t) ≠ "" := by
    intro h
    have := congrArg String.length h
    simp [String.length_append] at this
    exact (by decide : "/tmp/".length ≠ 0) this.1
  simpa using h

theorem resolve_image_cached (w : World) (st : St) (url : String)
    (h : w.isfile ("/tmp/" ++ targetfile url) = true) :
    LXDTest.resolve_image w st url
      = (PyVal.strV ("/tmp/" ++ targetfile url), true, st) := by
  unfold LXDTest.resolve_image
  simp [h]

theorem resolve_image_fetched (w : World) (st : St) (url : String)
    (h : w.isfile ("/tmp/" ++ targetfile url) = false)
    (hok : w.fetchRes st.f = FetchOutcome.ok) (hfile : w.fetchFile st.f = true) :
    LXDTest.resolve_image w st url
      = (PyVal.strV ("/tmp/" ++ targetfile url), true,
         ⟨st.trace ++ [Event.fetch url ("/tmp/" ++ targetfile url)], st.k, st.f + 1⟩) := by
  unfold LXDTest.resolve_image LXDTest.download_images
  simp [h, hok, hfile, PyVal.truthy, tmp_ne_empty]

theorem test_trace_eq (cfg : Config) (w : World) :
    (test_lxd_vm cfg w).2.trace
      = (LXDTest.start_vm cfg w stInit).2.trace
        ++ [Event.cmd (Cmd.imageDelete cfg.image_alias),
            Event.cmd (Cmd.deleteForce cfg.name)] := by
  simp [test_lxd_vm, LXDTest.cleanup, run_command_trace, List.append_assoc]

theorem test_countP_zero (cfg : Config) (w : World) (p : Event → Bool)
    (hstart : ((LXDTest.start_vm cfg w stInit).2.trace).countP p = 0)
    (hd1 : p (Event.cmd (Cmd.imageDelete cfg.image_alias)) = false)
    (hd2 : p (Event.cmd (Cmd.deleteForce cfg.name)) = false) :
    ((test_lxd_vm cfg w).2.trace).countP p = 0 := by
  rw [test_trace_eq]
  simp [List.countP_append, List.countP_cons, hd1, hd2, hstart]

def badLaunch (cfg : Config) : Event → Bool
  | .cmd (.launchVm a n) => !(a == cfg.image_alias && n == cfg.name)
  | _ => false

theorem launch_args (cfg : Config) (w : World) (a n : String)
    (hmem : Event.cmd (Cmd.launchVm a n) ∈ (test_lxd_vm cfg w).2.trace) :
    a = cfg.image_alias ∧ n = cfg.name := by
  have hz : ((test_lxd_vm cfg w).2.trace).countP (badLaunch cfg) = 0 := by
    refine test_countP_zero cfg w _ ?_ rfl rfl
    have h := start_vm_countP cfg w stInit (badLaunch cfg)
      (setup_countP cfg w stInit _ rfl (fun _ _ _ => rfl) (fun _ _ _ => rfl)
        (fun _ _ => rfl))
      (by simp [badLaunch]) rfl rfl rfl
    simpa [stInit] using h
  rw [List.countP_eq_zero] at hz
  have h := hz _ hmem
  simp [badLaunch] at h
  exact h

theorem setup_ttar_eq (cfg : Config) (w : World) (st : St) :
    (LXDTest.setup cfg w st).2.1
      = (match cfg.template_url with
         | none => PyVal.noneV
         | some url =>
             (LXDTest.resolve_image w (LXDTest.run_command w st Cmd.lxdInit).2 url).1) := by
  unfold LXDTest.setup
  dsimp only
  rcases htu : cfg.template_url with _ | turl <;>
    rcases hru : cfg.rootfs_url with _ | rurl <;>
      simp only [htu, hru]
  all_goals repeat' split
  all_goals rfl

theorem setup_rtar_eq_none (cfg : Config) (w : World) (st : St)
    (htu : cfg.template_url = none) :
    (LXDTest.setup cfg w st).2.2.1
      = (match cfg.rootfs_url with
         | none => PyVal.noneV
         | some url =>
             (LXDTest.resolve_image w (LXDTest.run_command w st Cmd.lxdInit).2 url).1) := by
  unfold LXDTest.setup
  dsimp only
  rcases hru : cfg.rootfs_url with _ | rurl <;>
    simp only [htu, hru]
  all_goals repeat' split
  all_goals rfl

theorem resolve_image_ok_val (w : World) (st : St) (url : String)
    (hres : w.isfile ("/tmp/" ++ targetfile url) = true ∨
      (w.fetchRes st.f = FetchOutcome.ok ∧ w.fetchFile st.f = true)) :
    (LXDTest.resolve_image w st url).1 = PyVal.strV ("/tmp/" ++ targetfile url) := by
  by_cases hi : w.isfile ("/tmp/" ++ targetfile url)
  · rw [resolve_image_cached w st url hi]
  · rcases hres with hres | ⟨hok, hfile⟩
    · exact absurd hres hi
    · rw [resolve_image_fetched w st url (by simpa using hi) hok hfile]

/-- Environment in which every command succeeds, nothing is cached, and every
fetch succeeds leaving the file in place. -/
def wAllOk : World :=
  ⟨fun _ => 0, fun _ => "", fun _ => "", fun _ => false, fun _ => FetchOutcome.ok,
   fun _ => true⟩

/-- Environment in which every command succeeds except the 5th (the boot probe
of a no-locator run), nothing cached, fetches fine. -/
def wProbeFail : World :=
  ⟨fun k => if k = 5 then 1 else 0, fun _ => "", fun _ => "", fun _ => false,
   fun _ => FetchOutcome.ok, fun _ => true⟩

/-- Environment in which the first copy attempt (command 1) fails and
everything else succeeds. -/
def wRetry : World :=
  ⟨fun k => if k = 1 then 1 else 0, fun _ => "", fun _ => "", fun _ => false,
   fun _ => FetchOutcome.ok, fun _ => true⟩

/-- Environment in which the first fetch raises an IOError and every command
succeeds. -/
def wFetchFail0 : World :=
  ⟨fun _ => 0, fun _ => "", fun _ => "", fun _ => false,
   fun k => if k = 0 then FetchOutcome.ioError else FetchOutcome.ok, fun _ => true⟩

/-- Environment in which every file already exists locally and every command
succeeds. -/
def wCached : World :=
  ⟨fun _ => 0, fun _ => "", fun _ => "", fun _ => true, fun _ => FetchOutcome.ok,
   fun _ => true⟩

/-- Environment in which every command fails with exit status 1. -/
def wFail1 : World :=
  ⟨fun _ => 1, fun _ => "boom", fun _ => "bang", fun _ => false,
   fun _ => FetchOutcome.ok, fun _ => true⟩

/-- Environment in which every fetch reports success but the downloaded file
is not found on disk afterwards. -/
def wGhost : World :=
  ⟨fun _ => 0, fun _ => "", fun _ => "", fun _ => false, fun _ => FetchOutcome.ok,
   fun _ => false⟩

/-- Run with neither locator provided. -/
def cfgB : Config := LXDTest.make none none "alias1" "24.04"

/-- Run with only a template locator provided. -/
def cfg5 : Config := LXDTest.make (some "http://host/t.tar") none "alias1" "24.04"

/-- Run with both locators provided. -/
def cfg6 : Config :=
  LXDTest.make (some "http://host/t.tar") (some "http://host/r.tar") "alias1" "24.04"

/-- C3: the verification step terminates with success on the first probe
whose guest-introspection command exits with status 0, without attempting any
further probe (exactly one probe appears in the whole trace) and without
waiting out any remaining time budget. -/
theorem c3_first_probe_success (cfg : Config) (w : World)
    (h0 : (LXDTest.setup cfg w stInit).1 = true)
    (h1 : w.ret ((LXDTest.setup cfg w stInit).2.2.2.k) = 0)
    (h2 : w.ret ((LXDTest.setup cfg w stInit).2.2.2.k + 1) = 0)
    (h3 : w.ret ((LXDTest.setup cfg w stInit).2.2.2.k + 2) = 0)
    (h4 : w.ret ((LXDTest.setup cfg w stInit).2.2.2.k + 3) = 0) :
    (LXDTest.start_vm cfg w stInit).1 = true ∧
    probeCount cfg.name ((LXDTest.start_vm cfg w stInit).2.trace) = 1 := by
  obtain ⟨ht, hr⟩ := start_vm_tail cfg w h0 h1 h2 h3
  refine ⟨by rw [hr]; simp [h4], ?_⟩
  rw [probeCount, countEv, ht]
  simp [List.countP_append, List.countP_cons, exec_countP_zero cfg w]

/-- Witness for `c3_first_probe_success` at a concrete run. -/
theorem c3_first_probe_success_witness :
    (LXDTest.start_vm cfgB wAllOk stInit).1 = true ∧
    probeCount cfgB.name ((LXDTest.start_vm cfgB wAllOk stInit).2.trace) = 1 :=
  c3_first_probe_success cfgB wAllOk (by decide) (by decide) (by decide) (by decide)
    (by decide)

/-- Witness for `c2_single_probe_on_failure` at a concrete run. -/
theorem c2_single_probe_on_failure_witness :
    (LXDTest.start_vm cfgB wProbeFail stInit).1 = false ∧
    probeCount cfgB.name ((LXDTest.start_vm cfgB wProbeFail stInit).2.trace) = 1 :=
  c2_single_probe_on_failure cfgB wProbeFail (by decide) (by decide) (by decide) (by decide) (by decide)

/-- C4: on the remote-catalog import path the image-copy command is attempted
at most 3 times in total — once if the first attempt succeeds, twice if the
second attempt is the first success, three times otherwise — so retrying
stops immediately after the first success, and setup reports failure exactly
when all 3 attempts fail.  (The loop has no sleep, so there is no delay
between attempts.) -/
theorem c4_copy_retry_budget (cfg : Config) (w : World)
    (hb : (cfg.template_url.isSome && cfg.rootfs_url.isSome) = false) :
    ((LXDTest.setup cfg w stInit).2.2.2.trace).countP isCopyCmd
      = (if w.ret 1 = 0 then 1 else if w.ret 2 = 0 then 2 else 3) ∧
    ((LXDTest.setup cfg w stInit).1 = false ↔
      (w.ret 1 ≠ 0 ∧ w.ret 2 ≠ 0 ∧ w.ret 3 ≠ 0)) := by
  obtain ⟨hres, hcount⟩ := setup_fallback_spec cfg w hb
  refine ⟨hcount, ?_⟩
  rw [hres]
  by_cases h1 : w.ret 1 = 0 <;> by_cases h2 : w.ret 2 = 0 <;>
    by_cases h3 : w.ret 3 = 0 <;> simp [h1, h2, h3]

/-- Witness for `c4_copy_retry_budget`: first copy attempt fails, second
succeeds: two attempts, setup succeeds. -/
theorem c4_copy_retry_budget_witness :
    (((LXDTest.setup cfgB wRetry stInit).2.2.2.trace).countP isCopyCmd
      = (if wRetry.ret 1 = 0 then 1 else if wRetry.ret 2 = 0 then 2 else 3)) ∧
    ((LXDTest.setup cfgB wRetry stInit).1 = false ↔
      (wRetry.ret 1 ≠ 0 ∧ wRetry.ret 2 ≠ 0 ∧ wRetry.ret 3 ≠ 0)) :=
  c4_copy_retry_budget cfgB wRetry (by decide)

/-- C5 evaluation at the failing input: a run whose template download fails
(IOError) while every external command succeeds.  Image resolution fails (the
template tarball attribute ends up Python `False` after an attempted fetch),
yet `setup` returns `True`, the instance is launched and the whole run
passes: the `result = False` of the resolution block (line 123) is
overwritten by the remote-copy result at line 163, although the code logs
`Aborting` — so resolution failure is not fatal, contradicting the claim. -/
theorem c5_resolution_failure_not_fatal :
    (LXDTest.setup cfg5 wFetchFail0 stInit).2.1 = PyVal.falseV ∧
    Event.fetch "http://host/t.tar" "/tmp/t.tar"
      ∈ (test_lxd_vm cfg5 wFetchFail0).2.trace ∧
    (LXDTest.setup cfg5 wFetchFail0 stInit).1 = true ∧
    (test_lxd_vm cfg5 wFetchFail0).1 = true ∧
    Event.cmd (Cmd.launchVm "alias1" "testbed") ∈ (test_lxd_vm cfg5 wFetchFail0).2.trace := by
  decide

/-- C6 counterexample: with both locators provided but the template download
failing, no local template tarball is available, yet setup still takes the
direct local-import path — issuing one import command whose first argument is
the string `False` — and never the remote-catalog fallback; the gate tests
locator presence (lines 147), not tarball availability. -/
theorem c6_tarball_availability_counterexample :
    (LXDTest.setup cfg6 wFetchFail0 stInit).2.1 = PyVal.falseV ∧
    ((LXDTest.setup cfg6 wFetchFail0 stInit).2.2.2.trace).countP isImportCmd = 1 ∧
    ((LXDTest.setup cfg6 wFetchFail0 stInit).2.2.2.trace).countP isCopyCmd = 0 ∧
    Event.cmd (Cmd.imgImport "False" "/tmp/r.tar" "alias1")
      ∈ (LXDTest.setup cfg6 wFetchFail0 stInit).2.2.2.trace := by
  decide

/-- C2 counterexample: in a concrete run where setup, launch, start and
listing all succeed and every boot probe fails, the verification step of
`start_vm` attempts exactly 1 probe — not floor(60/5) = 12 as the claim
states — and terminates with failure immediately; the code performs a single
guest-exec probe and contains no poll loop. -/
theorem c2_twelve_probes_counterexample :
    (LXDTest.start_vm cfgB wProbeFail stInit).1 = false ∧
    probeCount "testbed" (LXDTest.start_vm cfgB wProbeFail stInit).2.trace = 1 ∧
    probeCount "testbed" (LXDTest.start_vm cfgB wProbeFail stInit).2.trace ≠ 12 := by
  decide

/-- C6 (amended): setup takes the direct local-import path exactly when both
template and rootfs locators are provided — regardless of whether their
downloads succeeded — issuing exactly one import command and no copy command,
the single import attempt's exit status becoming setup's result (failure
fatal); otherwise it takes the remote-catalog fallback: no import command and
at least one copy command. -/
theorem c6_import_gate_is_locator_presence (cfg : Config) (w : World) :
    ((cfg.template_url.isSome && cfg.rootfs_url.isSome) = true →
      ((LXDTest.setup cfg w stInit).2.2.2.trace).countP isImportCmd = 1 ∧
      ((LXDTest.setup cfg w stInit).2.2.2.trace).countP isCopyCmd = 0 ∧
      (LXDTest.setup cfg w stInit).1 = decide (w.ret 1 = 0)) ∧
    ((cfg.template_url.isSome && cfg.rootfs_url.isSome) = false →
      ((LXDTest.setup cfg w stInit).2.2.2.trace).countP isImportCmd = 0 ∧
      1 ≤ ((LXDTest.setup cfg w stInit).2.2.2.trace).countP isCopyCmd) := by
  constructor
  · intro hb
    obtain ⟨h1, h2, h3⟩ := setup_import_spec cfg w hb
    exact ⟨h2, h3, h1⟩
  · intro hb
    constructor
    · have h := setup_countP_fallback cfg w stInit isImportCmd hb rfl
        (fun _ _ _ => rfl) (fun _ _ => rfl)
      simpa [stInit] using h
    · obtain ⟨_, hcount⟩ := setup_fallback_spec cfg w hb
      rw [hcount]
      by_cases h1 : w.ret 1 = 0 <;> by_cases h2 : w.ret 2 = 0 <;> simp [h1, h2]

/-- Witness for `c6_import_gate_is_locator_presence`, instantiating the
both-provided branch and the fallback branch at concrete runs. -/
theorem c6_import_gate_is_locator_presence_witness :
    (((LXDTest.setup cfg6 wAllOk stInit).2.2.2.trace).countP isImportCmd = 1 ∧
      ((LXDTest.setup cfg6 wAllOk stInit).2.2.2.trace).countP isCopyCmd = 0 ∧
      (LXDTest.setup cfg6 wAllOk stInit).1 = decide (wAllOk.ret 1 = 0)) ∧
    (((LXDTest.setup cfgB wAllOk stInit).2.2.2.trace).countP isImportCmd = 0 ∧
      1 ≤ ((LXDTest.setup cfgB wAllOk stInit).2.2.2.trace).countP isCopyCmd) :=
  ⟨(c6_import_gate_is_locator_presence cfg6 wAllOk).1 (by decide), (c6_import_gate_is_locator_presence cfgB wAllOk).2 (by decide)⟩

/-- C7: when a file with the URL's derived filename already exists in the
destination directory, the image resolver returns exactly that path with the
state unchanged — no fetch event is recorded, so the fetch operation is not
invoked and the cached file's contents are never validated. -/
theorem c7_cached_file_skips_fetch (w : World) (st : St) (url : String)
    (h : w.isfile ("/tmp/" ++ targetfile url) = true) :
    LXDTest.resolve_image w st url
      = (PyVal.strV ("/tmp/" ++ targetfile url), true, st) :=
  resolve_image_cached w st url h

/-- Witness for `c7_cached_file_skips_fetch` at a concrete pre-seeded
filesystem. -/
theorem c7_cached_file_skips_fetch_witness :
    LXDTest.resolve_image wCached stInit "http://host/a.tar"
      = (PyVal.strV ("/tmp/" ++ targetfile "http://host/a.tar"), true, stInit) :=
  c7_cached_file_skips_fetch wCached stInit "http://host/a.tar" (by decide)

/-- C8: the command executor returns a result carrying the exit status,
stdout and stderr of the invocation (a total function — `communicate` never
raises on nonzero exit), the caller's success judgment `run_command = true`
holds iff the exit status equals 0, and on a nonzero exit both the command's
stdout and its stderr are logged at error level. -/
theorem c8_run_command_contract (w : World) (k : Nat) (c : String) (tr : List Event) (f : Nat) (cv : Cmd) :
    (RunCommand.make w k c).returncode = w.ret k ∧
    (RunCommand.make w k c).stdout = w.out k ∧
    (RunCommand.make w k c).stderr = w.err k ∧
    ((run_command_logs (RunCommand.make w k c)).1 = true ↔ w.ret k = 0) ∧
    ((LXDTest.run_command w ⟨tr, k, f⟩ cv).1 = true ↔ w.ret k = 0) ∧
    (w.ret k ≠ 0 →
      LogLine.mk LogLevel.error (" STDOUT: " ++ w.out k)
          ∈ (run_command_logs (RunCommand.make w k c)).2 ∧
      LogLine.mk LogLevel.error (" STDERR: " ++ w.err k)
          ∈ (run_command_logs (RunCommand.make w k c)).2) := by
  refine ⟨rfl, rfl, rfl, ?_, ?_, ?_⟩
  · by_cases h : w.ret k = 0 <;> simp [run_command_logs, RunCommand.make, h]
  · by_cases h : w.ret k = 0 <;>
      simp [LXDTest.run_command, run_command_logs, RunCommand.make, h]
  · intro h
    simp [run_command_logs, RunCommand.make, h]

/-- Witness for `c8_run_command_contract` at a failing command. -/
theorem c8_run_command_contract_witness :
    ((run_command_logs (RunCommand.make wFail1 0 "lxc list")).1 = true ↔
      wFail1.ret 0 = 0) ∧
    LogLine.mk LogLevel.error (" STDOUT: " ++ wFail1.out 0)
      ∈ (run_command_logs (RunCommand.make wFail1 0 "lxc list")).2 :=
  ⟨(c8_run_command_contract wFail1 0 "lxc list" [] 0 Cmd.list).2.2.2.1,
   ((c8_run_command_contract wFail1 0 "lxc list" [] 0 Cmd.list).2.2.2.2.2 (by decide)).1⟩

/-- C9: `download_images` returns failure (Python `False`) whenever the fetch
raises (network/filesystem or malformed-URL error) or whenever the post-fetch
`os.path.isfile` re-check does not find the file even though the fetch call
reported success; exactly one fetch is attempted — there is no retry at the
fetch layer — and no command is spawned. -/
theorem c9_download_images_failure_contract (w : World) (st : St) (url fn : String)
    (h : w.fetchRes st.f ≠ FetchOutcome.ok ∨ w.fetchFile st.f = false) :
    (LXDTest.download_images w st url fn).1 = PyVal.falseV ∧
    (LXDTest.download_images w st url fn).2.trace = st.trace ++ [Event.fetch url fn] ∧
    (LXDTest.download_images w st url fn).2.f = st.f + 1 ∧
    (LXDTest.download_images w st url fn).2.k = st.k := by
  refine ⟨?_, rfl, rfl, rfl⟩
  unfold LXDTest.download_images
  dsimp only
  rcases hr : w.fetchRes st.f with _ | _ | _
  · rcases h with h | h
    · exact absurd hr h
    · simp [hr, h]
  · simp [hr]
  · simp [hr]

/-- Witness for `c9_download_images_failure_contract`: the fetch reports
success but the file is absent afterwards. -/
theorem c9_download_images_failure_contract_witness :
    (LXDTest.download_images wGhost stInit "http://host/a.tar" "/tmp/a.tar").1
        = PyVal.falseV ∧
    (LXDTest.download_images wGhost stInit "http://host/a.tar" "/tmp/a.tar").2.trace
        = stInit.trace ++ [Event.fetch "http://host/a.tar" "/tmp/a.tar"] ∧
    (LXDTest.download_images wGhost stInit "http://host/a.tar" "/tmp/a.tar").2.f
        = stInit.f + 1 ∧
    (LXDTest.download_images wGhost stInit "http://host/a.tar" "/tmp/a.tar").2.k
        = stInit.k :=
  c9_download_images_failure_contract wGhost stInit "http://host/a.tar" "/tmp/a.tar" (Or.inr rfl)

/-- C10: when exactly one of the two locators is provided, the run never
issues a local-pair import command, setup takes the remote-catalog fallback
(at least one copy command), every launch command in the whole run references
only the generated alias and the instance name — never the tarball — and the
provided locator's tarball is nonetheless resolved, to the cached or freshly
downloaded path under /tmp. -/
theorem c10_single_locator_fallback (cfg : Config) (w : World)
    (hx : (cfg.template_url.isSome && cfg.rootfs_url.isSome) = false)
    (_hy : (cfg.template_url.isSome || cfg.rootfs_url.isSome) = true) :
    ((test_lxd_vm cfg w).2.trace).countP isImportCmd = 0 ∧
    1 ≤ ((LXDTest.setup cfg w stInit).2.2.2.trace).countP isCopyCmd ∧
    (∀ a n, Event.cmd (Cmd.launchVm a n) ∈ (test_lxd_vm cfg w).2.trace →
      a = cfg.image_alias ∧ n = cfg.name) ∧
    (∀ url, cfg.template_url = some url →
      (w.isfile ("/tmp/" ++ targetfile url) = true ∨
        (w.fetchRes 0 = FetchOutcome.ok ∧ w.fetchFile 0 = true)) →
      (LXDTest.setup cfg w stInit).2.1 = PyVal.strV ("/tmp/" ++ targetfile url)) ∧
    (∀ url, cfg.rootfs_url = some url →
      (w.isfile ("/tmp/" ++ targetfile url) = true ∨
        (w.fetchRes 0 = FetchOutcome.ok ∧ w.fetchFile 0 = true)) →
      (LXDTest.setup cfg w stInit).2.2.1 = PyVal.strV ("/tmp/" ++ targetfile url)) := by
  refine ⟨?_, ?_, ?_, ?_, ?_⟩
  · refine test_countP_zero cfg w isImportCmd ?_ rfl rfl
    have h := start_vm_countP cfg w stInit isImportCmd
      (setup_countP_fallback cfg w stInit isImportCmd hx rfl (fun _ _ _ => rfl)
        (fun _ _ => rfl)) rfl rfl rfl rfl
    simpa [stInit] using h
  · obtain ⟨_, hcount⟩ := setup_fallback_spec cfg w hx
    rw [hcount]
    by_cases h1 : w.ret 1 = 0 <;> by_cases h2 : w.ret 2 = 0 <;> simp [h1, h2]
  · intro a n hmem
    exact launch_args cfg w a n hmem
  · intro url htu hres
    rw [setup_ttar_eq cfg w stInit]
    simp only [htu]
    exact resolve_image_ok_val w _ url hres
  · intro url hru hres
    have htu : cfg.template_url = none := by
      rcases htu0 : cfg.template_url with _ | turl
      · rfl
      · rw [htu0, hru] at hx
        simp at hx
    rw [setup_rtar_eq_none cfg w stInit htu]
    simp only [hru]
    exact resolve_image_ok_val w _ url hres

/-- Witness for `c10_single_locator_fallback`: template-only run with a
cached tarball. -/
theorem c10_single_locator_fallback_witness :
    ((test_lxd_vm cfg5 wCached).2.trace).countP isImportCmd = 0 ∧
    1 ≤ ((LXDTest.setup cfg5 wCached stInit).2.2.2.trace).countP isCopyCmd ∧
    (LXDTest.setup cfg5 wCached stInit).2.1
      = PyVal.strV ("/tmp/" ++ targetfile "http://host/t.tar") := by
  obtain ⟨hA, hB, _, hD, _⟩ := c10_single_locator_fallback cfg5 wCached (by decide) (by decide)
  exact ⟨hA, hB, hD "http://host/t.tar" rfl (Or.inl (by decide))⟩
